import Mathlib

/-!
Verification of the transcriber repository: a shallow embedding of the
backend audio pipeline (audio conversion, Whisper transcription client,
Gemini cleanup client, HTTP controller and validation middleware) and of
the frontend recorder services, together with theorems settling the
specification claims about them.

Conventions of the embedding:
* JavaScript strings are Lean `String`s; `s.trim()` is `String.trim`,
  `s.includes(pat)` is `containsSubstr` below.
* Byte buffers (`Buffer`, `Blob` contents) are `List Nat`.
* A promise that either resolves or rejects is `Except String α`, the
  `String` being the rejection's error message.
* Asynchronous external effects (fetch, ffmpeg, the Gemini SDK, temp-file
  I/O) are passed in as explicit outcome parameters, so each method body
  is a pure function of its inputs and the outcomes of its external calls.
* Performed side effects that matter to the claims (temp-file unlinks,
  object-URL revocations, which pipeline stages were invoked) are returned
  alongside the result as explicit effect records.
-/

deriving instance DecidableEq for Except

namespace Transcriber

/-- Does `pat` occur as a contiguous sublist of `l`? Checked by testing
`pat` as a prefix of every suffix of `l`. -/
def listContainsSub (pat : List Char) : List Char → Bool
  | [] => pat.isEmpty
  | c :: rest => pat.isPrefixOf (c :: rest) || listContainsSub pat rest

/-- Model of JavaScript `String.prototype.includes`: `pat` occurs as a
contiguous substring of `s`. -/
def containsSubstr (s pat : String) : Bool :=
  listContainsSub pat.data s.data

/-- Model of JavaScript `String.prototype.trim`: remove leading and
trailing whitespace characters. -/
def jsTrim (s : String) : String :=
  ⟨((s.data.dropWhile Char.isWhitespace).reverse.dropWhile Char.isWhitespace).reverse⟩

/-- An uploaded multer file: `buffer`, `originalname`, `mimetype`, `size`
(the fields of `Express.Multer.File` the code reads). -/
structure MFile where
  buffer : List Nat
  originalname : String
  mimetype : String
  size : Nat
deriving DecidableEq, Repr

/-- Result record of `AudioConversionService.convertToMp3` (interface
`ConvertedAudio` in both implementations). -/
structure ConvertedAudio where
  buffer : List Nat
  mimetype : String
  originalname : String
deriving DecidableEq, Repr

/-- The condition under which the regex `\.[^.]+$` matches a filename:
the name ends with a dot followed by at least one non-dot character.
Computed from the reversed character list: the trailing run of non-dot
characters is non-empty and is preceded by a dot. -/
def hasExtension (name : String) : Bool :=
  let rev := name.data.reverse
  let ext := rev.takeWhile (fun c => c ≠ '.')
  !ext.isEmpty && ((rev.drop ext.length).headD ' ' == '.')

/-- Embedding of `originalname.replace(/\.[^.]+$/, '.mp3')`: when the
regex matches (see `hasExtension`) the matched suffix — the last dot and
everything after it — is replaced by ".mp3"; otherwise the name is
unchanged. -/
def replaceExtWithMp3 (name : String) : String :=
  if hasExtension name then
    let rev := name.data.reverse
    let ext := rev.takeWhile (fun c => c ≠ '.')
    ⟨(rev.drop (ext.length + 1)).reverse ++ String.data ".mp3"⟩
  else name

/-- The ".mp3"-extension property used to state claims about derived
filenames: the character sequence of the name ends with `.mp3`. -/
def endsWithMp3 (name : String) : Bool :=
  List.isSuffixOf (String.data ".mp3") name.data

/-- Outcome of the external ffmpeg invocation: either the `error` event
fires with a message, or the `end` event fires. -/
inductive FfmpegEvent where
  | errorEv (msg : String)
  | endEv
deriving DecidableEq, Repr

/-- Result of the temp-file `AudioConversionService.convertToMp3`
(src/unnamed/part_006) together with the temp-file unlink effects it
performed before settling. -/
structure ConvertOutcome where
  result : Except String ConvertedAudio
  unlinked : List String
deriving Repr

/-- Embedding of the temp-file `AudioConversionService.convertToMp3`
(src/unnamed/part_006, lines 17-88). Inputs beyond the file itself are the
two generated temp paths and the outcomes of the external calls: whether
`writeFile` of the input buffer succeeded, which ffmpeg event fired, and
the result of reading back the output file. Every `unlink(..).catch(noop)`
the code performs before resolving or rejecting is recorded in
`unlinked`. -/
def convertToMp3TempFile (file : MFile) (tempInputPath tempOutputPath : String)
    (writeFileOk : Bool) (ffmpegRun : FfmpegEvent)
    (readFileResult : Except String (List Nat)) : ConvertOutcome :=
  if writeFileOk = false then
    { result := .error "Failed to prepare audio file for conversion"
      unlinked := [tempInputPath] }
  else
    match ffmpegRun with
    | .errorEv msg =>
        { result := .error ("Audio conversion failed: " ++ msg)
          unlinked := [tempInputPath, tempOutputPath] }
    | .endEv =>
        match readFileResult with
        | .ok convertedBuffer =>
            { result := .ok { buffer := convertedBuffer
                              mimetype := "audio/mpeg"
                              originalname := replaceExtWithMp3 file.originalname }
              unlinked := [tempInputPath, tempOutputPath] }
        | .error _ =>
            { result := .error "Failed to read converted audio file"
              unlinked := [tempInputPath, tempOutputPath] }

/-- Embedding of the streaming `AudioConversionService.convertToMp3`
(src/backend/src/services/AudioConversionService.ts, lines 17-65): the
input buffer is piped through ffmpeg; on the `error` event the promise
rejects, on `end` the collected output chunks are concatenated. -/
def convertToMp3Streaming (file : MFile) (ffmpegRun : FfmpegEvent)
    (chunks : List (List Nat)) : Except String ConvertedAudio :=
  match ffmpegRun with
  | .errorEv msg => .error ("Audio conversion failed: " ++ msg)
  | .endEv =>
      .ok { buffer := chunks.flatten
            mimetype := "audio/mpeg"
            originalname := replaceExtWithMp3 file.originalname }

/-- A fetch response as read by `WhisperTranscriptionService.transcribe`:
`ok`/`status`, the declared content type (`none` models a null
`content-type` header), the `text` field of the JSON body when parsed as
JSON (`none` models a missing field, i.e. `result.text` undefined), and
the raw body text. -/
structure FetchResponse where
  ok : Bool
  status : Nat
  contentType : Option String
  jsonText : Option String
  bodyText : String
deriving DecidableEq, Repr

/-- Embedding of the body-extraction step of
`WhisperTranscriptionService.transcribe` (src/unnamed/part_004, lines
42-50): `contentType = response.headers.get('content-type') || ''`; if it
includes "application/json" the transcription is `result.text || ''`,
otherwise it is `response.text()`. -/
def extractTranscription (resp : FetchResponse) : String :=
  let contentType := resp.contentType.getD ""
  if containsSubstr contentType "application/json" then resp.jsonText.getD ""
  else resp.bodyText

/-- Embedding of the response handling of
`WhisperTranscriptionService.transcribe` (src/unnamed/part_004, lines
37-63): a non-ok status throws `Whisper API error: <status> <body>`; an
empty or whitespace-only extracted transcription throws
`Empty transcription result from Whisper`; otherwise the trimmed
transcription is returned. -/
def transcribeResponse (resp : FetchResponse) : Except String String :=
  if resp.ok = false then
    .error ("Whisper API error: " ++ toString resp.status ++ " " ++ resp.bodyText)
  else
    let transcription := extractTranscription resp
    if transcription == "" || jsTrim transcription == "" then
      .error "Empty transcription result from Whisper"
    else .ok (jsTrim transcription)

/-- Embedding of the whole of `WhisperTranscriptionService.transcribe`
(src/unnamed/part_004, lines 12-71): the audio conversion runs first and
its rejection propagates; a transport failure of `fetch` propagates; an
obtained response is handled by `transcribeResponse`. The catch block only
logs and rethrows, so every error passes through unchanged. -/
def whisperTranscribe (conversion : Except String ConvertedAudio)
    (fetchResult : Except String FetchResponse) : Except String String :=
  match conversion with
  | .error e => .error e
  | .ok _ =>
      match fetchResult with
      | .error e => .error e
      | .ok resp => transcribeResponse resp

/-- Embedding of `WhisperTranscriptionService.checkAvailability`
(src/unnamed/part_004, lines 73-98): the outcome of the body-less POST is
either a status (`.ok`) or a transport failure (`.error`); availability is
`status === 422`, and the catch-all returns `false`. -/
def checkAvailability (fetchResult : Except String Nat) : Bool :=
  match fetchResult with
  | .ok status => status == 422
  | .error _ => false

/-- The two modes of `GeminiCleanupService.processTranscript`. -/
inductive CleanupMode where
  | cleanup
  | intelligent
deriving DecidableEq, Repr

/-- String a `CleanupMode` interpolates to in the code. -/
def CleanupMode.str : CleanupMode → String
  | .cleanup => "cleanup"
  | .intelligent => "intelligent"

/-- Embedding of `GeminiCleanupService.processTranscript`
(src/backend/src/services/GeminiCleanupService.ts, lines 21-50).
`engineResult` is the outcome of the Gemini SDK call chain
(`generateContent`/`response`/`text()`): either a rejection with the
underlying cause's message, or the produced text. Its trimmed text, when
empty, throws inside the try; every error caught is replaced by
`Failed to <mode> transcript with Gemini`. -/
def processTranscript (mode : CleanupMode) (engineResult : Except String String) :
    Except String String :=
  let wrapped := "Failed to " ++ mode.str ++ " transcript with Gemini"
  match engineResult with
  | .error _ => .error wrapped
  | .ok text =>
      let cleaned := jsTrim text
      if cleaned == "" then .error wrapped
      else .ok cleaned

/-- `GeminiCleanupService.cleanupTranscript` delegates to
`processTranscript` in mode `cleanup`. -/
def cleanupTranscript (engineResult : Except String String) : Except String String :=
  processTranscript .cleanup engineResult

/-- `GeminiCleanupService.intelligentCleanup` delegates to
`processTranscript` in mode `intelligent`. -/
def intelligentCleanup (engineResult : Except String String) : Except String String :=
  processTranscript .intelligent engineResult

/-- The JSON body of an HTTP reply of the controller. Every field the
handlers ever place in a `res.json({...})` object literal is an optional
field here; a field is `some` exactly when the literal contains it. -/
structure RespBody where
  error : Option String := none
  message : Option String := none
  original : Option String := none
  cleaned : Option String := none
  intelligent : Option String := none
deriving DecidableEq, Repr

/-- An HTTP reply: the argument of `res.status(..)` and the JSON body. -/
structure HttpReply where
  status : Nat
  body : RespBody
deriving DecidableEq, Repr

/-- Which pipeline stages a handler invocation actually called. The audio
conversion runs inside `WhisperTranscriptionService.transcribe`, so
`transcribeCalled = false` also means the conversion was not invoked. -/
structure PipelineCalls where
  transcribeCalled : Bool := false
  cleanupCalled : Bool := false
  intelligentCalled : Bool := false
deriving DecidableEq, Repr

/-- Embedding of `TranscriptionController.transcribeAudio`
(src/backend/src/controllers/TranscriptionController.ts, lines 26-76).
The three collaborators are passed as functions from their inputs to their
settled outcomes. A missing file answers 400 without touching the
pipeline; a rejection of `whisperService.transcribe` is caught and
answered with 500 `Transcription failed` plus the error's message, the two
cleanups never started; after both cleanups are started via `Promise.all`,
a rejection of either is caught the same way (when both reject, the
combinator surfaces one of the two rejections; the embedding surfaces the
cleanup one), and success answers 201 with the full result. -/
def transcribeAudio (file : Option MFile)
    (whisper : MFile → Except String String)
    (cleanupFn intelligentFn : String → Except String String) :
    HttpReply × PipelineCalls :=
  match file with
  | none => (⟨400, { error := some "No audio file provided" }⟩, {})
  | some f =>
      match whisper f with
      | .error e =>
          (⟨500, { error := some "Transcription failed", message := some e }⟩,
           { transcribeCalled := true })
      | .ok raw =>
          match cleanupFn raw, intelligentFn raw with
          | .ok c, .ok i =>
              (⟨201, { original := some raw, cleaned := some c, intelligent := some i
                       message := some "Transcription and cleanup completed successfully" }⟩,
               ⟨true, true, true⟩)
          | .error e, _ =>
              (⟨500, { error := some "Transcription failed", message := some e }⟩,
               ⟨true, true, true⟩)
          | _, .error e =>
              (⟨500, { error := some "Transcription failed", message := some e }⟩,
               ⟨true, true, true⟩)

/-- The value found at `req.body.text` as JavaScript sees it: absent (or
any other falsy non-string), present but not a string, or a string. All
non-string cases fail the `!text || typeof text !== 'string'` guard. -/
inductive TextField where
  | absent
  | nonString
  | str (s : String)
deriving DecidableEq, Repr

/-- Embedding of `TranscriptionController.cleanupText`
(src/backend/src/controllers/TranscriptionController.ts, lines 78-119):
a missing, non-string, empty or whitespace-only `text` answers 400 with
`No text provided or text is empty` before any cleanup starts; otherwise
both cleanups run, a caught rejection answers 500 `Text cleanup failed`,
and success answers 200 with the full result. -/
def cleanupText (text : TextField)
    (cleanupFn intelligentFn : String → Except String String) :
    HttpReply × PipelineCalls :=
  match text with
  | .str s =>
      if s == "" || jsTrim s == "" then
        (⟨400, { error := some "No text provided or text is empty" }⟩, {})
      else
        match cleanupFn s, intelligentFn s with
        | .ok c, .ok i =>
            (⟨200, { original := some s, cleaned := some c, intelligent := some i
                     message := some "Text cleanup completed successfully" }⟩,
             { cleanupCalled := true, intelligentCalled := true })
        | .error e, _ =>
            (⟨500, { error := some "Text cleanup failed", message := some e }⟩,
             { cleanupCalled := true, intelligentCalled := true })
        | _, .error e =>
            (⟨500, { error := some "Text cleanup failed", message := some e }⟩,
             { cleanupCalled := true, intelligentCalled := true })
  | _ => (⟨400, { error := some "No text provided or text is empty" }⟩, {})

/-- Embedding of the `validateAudioFile` middleware
(src/backend/src/types/index.ts lines 49-69, mounted in
src/backend/src/index.ts on the /transcribe route): `some reply` means the
middleware responded and did not call `next()`; `none` means it passed the
request on. -/
def validateAudioFile (file : Option MFile) : Option HttpReply :=
  match file with
  | none => some ⟨400, { error := some "No audio file provided" }⟩
  | some f =>
      if f.size < 1024 then
        some ⟨400, { error := some "Audio file is too small or corrupted" }⟩
      else none

/-- The /transcribe route chain as mounted in src/backend/src/index.ts
(lines 30-36): `validateAudioFile` runs before
`TranscriptionController.transcribeAudio`; a middleware reply short-cuts
the handler, so no pipeline stage is called. -/
def transcribeRoute (file : Option MFile)
    (whisper : MFile → Except String String)
    (cleanupFn intelligentFn : String → Except String String) :
    HttpReply × PipelineCalls :=
  match validateAudioFile file with
  | some reply => (reply, {})
  | none => transcribeAudio file whisper cleanupFn intelligentFn

/-- A blob: byte content plus declared type. -/
structure Blob where
  bytes : List Nat
  type : String
deriving DecidableEq, Repr

/-- The `ondataavailable` handler of both recorder services
(src/frontend/src/app/services/audio-recorder.ts lines 47-51,
recording.ts lines 129-133): a chunk is appended to the accumulated list
only when `event.data.size > 0`. -/
def pushChunk (chunks : List (List Nat)) (data : List Nat) : List (List Nat) :=
  if 0 < data.length then chunks ++ [data] else chunks

/-- Chunk buffer after a sequence of `ondataavailable` events delivered
in order to a fresh session (the buffer starts at `[]`, audio-recorder.ts
line 45). -/
def deliverChunks (delivered : List (List Nat)) : List (List Nat) :=
  delivered.foldl pushChunk []

/-- The blob type chosen on stop: `this.mediaRecorder?.mimeType ||
'audio/webm'` (audio-recorder.ts line 90) — the recorder's reported type,
or the default when the recorder reports none (undefined or the falsy
empty string). -/
def blobType (reported : Option String) : String :=
  match reported with
  | some s => if s == "" then "audio/webm" else s
  | none => "audio/webm"

/-- Blob assembly on stop (audio-recorder.ts lines 90-91): `new
Blob(this.audioChunks, { type: mimeType })` — content is the
concatenation of the accumulated chunks, type is `blobType`. -/
def assembleBlob (chunks : List (List Nat)) (reported : Option String) : Blob :=
  { bytes := chunks.flatten, type := blobType reported }

/-- The `state` property of a browser `MediaRecorder`. -/
inductive MRState where
  | inactive
  | recording
  | paused
deriving DecidableEq, Repr

/-- The slice of a browser `MediaRecorder` the embedded code reads:
its `state` and its reported `mimeType` (`none` models undefined). -/
structure MediaRecorderM where
  recState : MRState
  mimeType : Option String
deriving DecidableEq, Repr

/-- State of the `AudioRecorder` service
(src/frontend/src/app/services/audio-recorder.ts): the held
`MediaRecorder` (if any), the accumulated chunk buffer, and the
service-level state signal. -/
structure AudioRecorderState where
  mediaRecorder : Option MediaRecorderM
  audioChunks : List (List Nat)
  stateSignal : MRState
deriving DecidableEq, Repr

/-- Embedding of `AudioRecorder.stopRecording` (audio-recorder.ts lines
75-98): with no recorder, or a recorder already inactive, it returns null
and changes nothing; otherwise `stop()` fires `onstop`, which sets the
state signal to IDLE, assembles the blob from the accumulated chunks with
the recorder's reported type, clears the chunk buffer, and resolves with
the blob (the device recorder itself becomes inactive). -/
def stopRecording (st : AudioRecorderState) : Option Blob × AudioRecorderState :=
  match st.mediaRecorder with
  | none => (none, st)
  | some mr =>
      if mr.recState = MRState.inactive then (none, st)
      else
        (some (assembleBlob st.audioChunks mr.mimeType),
         { mediaRecorder := some { mr with recState := MRState.inactive }
           audioChunks := []
           stateSignal := MRState.inactive })

/-- State of the `RecordingService`
(src/frontend/src/app/services/recording.ts): the held `MediaRecorder`,
chunk buffer, timer handle, elapsed-seconds signal, audio blob signal and
audio-URL signal. -/
structure RecordingServiceState where
  mediaRecorder : Option MediaRecorderM
  audioChunks : List (List Nat)
  timerInterval : Option Nat
  recordingTime : Nat
  audioBlob : Option Blob
  audioUrl : String
deriving DecidableEq, Repr

/-- Effects performed by a reset: whether `mediaRecorder.stop()` was
signalled, and which object URLs were passed to `URL.revokeObjectURL`. -/
structure ResetEffects where
  stoppedRecorder : Bool
  revokedUrls : List String
deriving DecidableEq, Repr

/-- Embedding of `RecordingService.stopRecording` (recording.ts lines
38-42): `mediaRecorder.stop()` is signalled only when a recorder exists
and is not inactive; the boolean records whether it was. -/
def rsStopRecording (st : RecordingServiceState) : RecordingServiceState × Bool :=
  match st.mediaRecorder with
  | some mr =>
      if mr.recState ≠ MRState.inactive then
        ({ st with mediaRecorder := some { mr with recState := MRState.inactive } }, true)
      else (st, false)
  | none => (st, false)

/-- Embedding of `RecordingService.reset` (recording.ts lines 44-51):
stop the recording if active, clear the timer, and set the audio blob,
audio URL, elapsed time and chunk buffer back to their initial values.
The method body contains no call to `URL.revokeObjectURL`, so the revoked
list of the performed effects is empty. -/
def rsReset (st : RecordingServiceState) : RecordingServiceState × ResetEffects :=
  let stopped := rsStopRecording st
  ({ stopped.1 with timerInterval := none, audioBlob := none, audioUrl := ""
                    recordingTime := 0, audioChunks := [] },
   { stoppedRecorder := stopped.2, revokedUrls := [] })

/-- State of the `FileUploadService`
(src/frontend/src/app/services/file-upload.ts): the uploaded file (by
name) and the object URL created for it. -/
structure FileUploadState where
  uploadedFile : Option String
  uploadedFileUrl : String
deriving DecidableEq, Repr

/-- Embedding of `FileUploadService.reset` (file-upload.ts lines 45-51):
when a (truthy, i.e. non-empty) URL is held it is revoked, then file and
URL signals are cleared. -/
def fuReset (st : FileUploadState) : FileUploadState × List String :=
  ({ uploadedFile := none, uploadedFileUrl := "" },
   if st.uploadedFileUrl == "" then [] else [st.uploadedFileUrl])

/-- The truthiness-plus-trim emptiness test the code performs on a string
holds exactly when the trimmed string is empty. -/
theorem beq_empty_or_trim_iff (t : String) :
    (t == "" || jsTrim t == "") = true ↔ jsTrim t = "" := by
  constructor
  · intro h
    rcases (by simpa using h : t = "" ∨ jsTrim t = "") with h1 | h1
    · subst h1; rfl
    · exact h1
  · intro h
    simp [h]

/-- C1: for every /transcribe request whose transcription stage fails
with error `e`, the controller answers status 500 with body
`{error: "Transcription failed", message: e}` (the message is exactly the
underlying error text, hence contains it), neither `cleanupTranscript`
nor `intelligentCleanup` is invoked, and — for all requests whatsoever —
a body carrying `original` always also carries `cleaned` and
`intelligent`, so a partial result is never returned. -/
theorem c1_transcription_failure_aborts_pipeline
    (f : MFile) (whisper : MFile → Except String String)
    (cleanupFn intelligentFn : String → Except String String) (e : String)
    (hw : whisper f = .error e) :
    (transcribeAudio (some f) whisper cleanupFn intelligentFn).1
        = ⟨500, { error := some "Transcription failed", message := some e }⟩
    ∧ (transcribeAudio (some f) whisper cleanupFn intelligentFn).2.cleanupCalled = false
    ∧ (transcribeAudio (some f) whisper cleanupFn intelligentFn).2.intelligentCalled = false
    ∧ ∀ (file : Option MFile) (w : MFile → Except String String)
        (c i : String → Except String String),
        (transcribeAudio file w c i).1.body.original.isSome = true →
          (transcribeAudio file w c i).1.body.cleaned.isSome = true
          ∧ (transcribeAudio file w c i).1.body.intelligent.isSome = true := by
  refine ⟨by simp [transcribeAudio, hw], by simp [transcribeAudio, hw],
    by simp [transcribeAudio, hw], ?_⟩
  intro file w c i h
  cases file with
  | none => simp [transcribeAudio] at h
  | some f2 =>
      cases hw2 : w f2 with
      | error e2 => simp [transcribeAudio, hw2] at h
      | ok raw =>
          cases hc : c raw <;> cases hi : i raw <;>
            simp [transcribeAudio, hw2, hc, hi] at h ⊢

/-- Witness for C1 at a concrete request: the Whisper client saw an
HTTP 500 whose body is "engine exploded", so the /transcribe handler
answers 500 with the engine's error text inside the message. -/
theorem c1_transcription_failure_aborts_pipeline_witness :
    (transcribeAudio (some ⟨[1], "a.wav", "audio/wav", 2048⟩)
        (fun _ => transcribeResponse ⟨false, 500, none, none, "engine exploded"⟩)
        (fun s => .ok s) (fun s => .ok s)).1
      = ⟨500, { error := some "Transcription failed"
                message := some "Whisper API error: 500 engine exploded" }⟩ :=
  (c1_transcription_failure_aborts_pipeline ⟨[1], "a.wav", "audio/wav", 2048⟩
    (fun _ => transcribeResponse ⟨false, 500, none, none, "engine exploded"⟩)
    (fun s => .ok s) (fun s => .ok s)
    "Whisper API error: 500 engine exploded" (by decide)).1

/-- C2: on every exit path of the temp-file converter with the input
successfully staged — success, ffmpeg error event, read-back failure —
both temp paths are unlinked before the promise settles; and when staging
the input fails, the operation rejects with the preparation error. -/
theorem c2_temp_files_removed_on_every_exit (f : MFile) (tin tout : String)
    (ff : FfmpegEvent) (readRes : Except String (List Nat)) :
    (tin ∈ (convertToMp3TempFile f tin tout true ff readRes).unlinked
      ∧ tout ∈ (convertToMp3TempFile f tin tout true ff readRes).unlinked)
    ∧ (convertToMp3TempFile f tin tout false ff readRes).result
        = .error "Failed to prepare audio file for conversion" := by
  refine ⟨?_, by simp [convertToMp3TempFile]⟩
  cases ff with
  | errorEv m => simp [convertToMp3TempFile]
  | endEv => cases readRes <;> simp [convertToMp3TempFile]

/-- C3: for every success-status response, the transcription is extracted
from the JSON `text` field when the declared content type contains
"application/json" and from the raw body otherwise; the call fails
exactly when the extracted text trims to empty, and otherwise returns the
trimmed extracted text. -/
theorem c3_success_body_extraction (resp : FetchResponse) (hok : resp.ok = true) :
    (containsSubstr (resp.contentType.getD "") "application/json" = true →
        extractTranscription resp = resp.jsonText.getD "")
    ∧ (containsSubstr (resp.contentType.getD "") "application/json" = false →
        extractTranscription resp = resp.bodyText)
    ∧ ((∃ e, transcribeResponse resp = .error e) ↔
        jsTrim (extractTranscription resp) = "")
    ∧ (jsTrim (extractTranscription resp) ≠ "" →
        transcribeResponse resp = .ok (jsTrim (extractTranscription resp))) := by
  refine ⟨fun h => by simp [extractTranscription, h],
    fun h => by simp [extractTranscription, h], ?_, ?_⟩
  · by_cases hcond : (extractTranscription resp == ""
        || jsTrim (extractTranscription resp) == "") = true
    · constructor
      · intro _; exact (beq_empty_or_trim_iff _).mp hcond
      · intro _
        refine ⟨"Empty transcription result from Whisper", ?_⟩
        simp [transcribeResponse, hok, hcond]
    · constructor
      · rintro ⟨e, he⟩
        rw [transcribeResponse] at he
        simp [hok, hcond] at he
      · intro h
        exact absurd ((beq_empty_or_trim_iff _).mpr h) hcond
  · intro h
    cases hcond : (extractTranscription resp == ""
        || jsTrim (extractTranscription resp) == "") with
    | true => exact absurd ((beq_empty_or_trim_iff _).mp hcond) h
    | false => simp [transcribeResponse, hok, hcond]

/-- Witness for C3 at a concrete JSON response: content type declares
JSON, the `text` field is " hello there ", and the trimmed text comes
back. -/
theorem c3_success_body_extraction_witness :
    transcribeResponse
        ⟨true, 200, some "application/json; charset=utf-8", some " hello there ", "raw"⟩
      = .ok "hello there" := by
  have h := (c3_success_body_extraction
      ⟨true, 200, some "application/json; charset=utf-8", some " hello there ", "raw"⟩
      rfl).2.2.2 (by decide)
  exact h.trans (by decide)

/-- Counterexample to C4 as stated: for the extension-less input filename
"recording" both converters succeed with output filename "recording",
which does not end in ".mp3" — the regex `\.[^.]+$` does not match, so
the name passes through unchanged. The mimetype is still "audio/mpeg". -/
theorem c4_counterexample_no_extension :
    convertToMp3Streaming ⟨[1], "recording", "audio/webm", 4⟩ .endEv [[2], [3]]
        = .ok ⟨[2, 3], "audio/mpeg", "recording"⟩
    ∧ (convertToMp3TempFile ⟨[1], "recording", "audio/webm", 4⟩ "tmp-in" "tmp-out"
        true .endEv (.ok [2])).result
        = .ok ⟨[2], "audio/mpeg", "recording"⟩
    ∧ endsWithMp3 "recording" = false := by decide

/-- C4 as amended: both converter implementations produce mimetype
"audio/mpeg" and derive the output filename by the same replacement
`replaceExtWithMp3` of the original name; whenever the original filename
has an extension (a final dot followed by non-dot characters — in
particular for .wav, .m4a, .webm, .ogg names) the derived filename ends
in ".mp3". For an extension-less original the name is unchanged. -/
theorem c4_amended_canonical_metadata (f : MFile) (tin tout : String)
    (buf : List Nat) (chunks : List (List Nat)) :
    (convertToMp3TempFile f tin tout true .endEv (.ok buf)).result
        = .ok ⟨buf, "audio/mpeg", replaceExtWithMp3 f.originalname⟩
    ∧ convertToMp3Streaming f .endEv chunks
        = .ok ⟨chunks.flatten, "audio/mpeg", replaceExtWithMp3 f.originalname⟩
    ∧ (hasExtension f.originalname = true →
        endsWithMp3 (replaceExtWithMp3 f.originalname) = true) := by
  refine ⟨by simp [convertToMp3TempFile], by simp [convertToMp3Streaming], fun h => ?_⟩
  rw [replaceExtWithMp3, if_pos h]
  simp [endsWithMp3, List.isSuffixOf]

/-- Witness for C4 as amended at a concrete input with extension
".webm": the derived filename is "clip.mp3" and ends in ".mp3". -/
theorem c4_amended_canonical_metadata_witness :
    (convertToMp3TempFile ⟨[7], "clip.webm", "audio/webm", 4⟩ "tmp-in" "tmp-out"
        true .endEv (.ok [8])).result
        = .ok ⟨[8], "audio/mpeg", replaceExtWithMp3 "clip.webm"⟩
    ∧ endsWithMp3 (replaceExtWithMp3 "clip.webm") = true :=
  ⟨(c4_amended_canonical_metadata ⟨[7], "clip.webm", "audio/webm", 4⟩ "tmp-in" "tmp-out"
      [8] []).1,
   (c4_amended_canonical_metadata ⟨[7], "clip.webm", "audio/webm", 4⟩ "tmp-in" "tmp-out"
      [8] []).2.2 (by decide)⟩

/-- C5: `checkAvailability` answers true exactly on a 422 status; every
other status and every transport failure answers false, and by totality
of the embedded catch-all the probe never propagates an error. -/
theorem c5_check_availability_422 (r : Except String Nat) :
    (checkAvailability r = true ↔ r = .ok 422)
    ∧ (∀ e : String, checkAvailability (.error e) = false) := by
  refine ⟨?_, fun e => rfl⟩
  cases r with
  | ok s => simp [checkAvailability]
  | error e => simp [checkAvailability]

/-- Counterexample to C6 as stated: the wrapped messages are
"Failed to cleanup transcript with Gemini" and
"Failed to intelligent transcript with Gemini" — both name the provider
(they contain "Gemini"), and neither equals the claimed provider-agnostic
"Failed to cleanup transcript" / "Failed to intelligentCleanup
transcript". -/
theorem c6_counterexample_provider_in_message :
    cleanupTranscript (.error "engine down")
        = .error "Failed to cleanup transcript with Gemini"
    ∧ intelligentCleanup (.error "engine down")
        = .error "Failed to intelligent transcript with Gemini"
    ∧ "Failed to cleanup transcript with Gemini" ≠ "Failed to cleanup transcript"
    ∧ "Failed to intelligent transcript with Gemini"
        ≠ "Failed to intelligentCleanup transcript"
    ∧ containsSubstr "Failed to cleanup transcript with Gemini" "Gemini" = true
    ∧ containsSubstr "Failed to intelligent transcript with Gemini" "Gemini" = true := by
  decide

/-- C6 as amended: every underlying cleanup failure — a rejected engine
call with any cause, or an engine response that is empty after trimming —
surfaces as the fixed message "Failed to cleanup transcript with Gemini"
(mode cleanup) or "Failed to intelligent transcript with Gemini" (mode
intelligent); the message is the same for every cause, so the underlying
cause's text is not incorporated into the surfaced error. -/
theorem c6_amended_fixed_wrapped_errors (cause okText : String)
    (hempty : jsTrim okText = "") :
    cleanupTranscript (.error cause)
        = .error "Failed to cleanup transcript with Gemini"
    ∧ intelligentCleanup (.error cause)
        = .error "Failed to intelligent transcript with Gemini"
    ∧ cleanupTranscript (.ok okText)
        = .error "Failed to cleanup transcript with Gemini"
    ∧ intelligentCleanup (.ok okText)
        = .error "Failed to intelligent transcript with Gemini"
    ∧ (∀ c1 c2 : String, cleanupTranscript (.error c1) = cleanupTranscript (.error c2)
        ∧ intelligentCleanup (.error c1) = intelligentCleanup (.error c2)) := by
  refine ⟨rfl, rfl, ?_, ?_, fun c1 c2 => ⟨rfl, rfl⟩⟩
  · simp [cleanupTranscript, processTranscript, hempty, CleanupMode.str]
  · simp [intelligentCleanup, processTranscript, hempty, CleanupMode.str]

/-- Witness for C6 as amended: a concrete cause and a concrete
whitespace-only engine response. -/
theorem c6_amended_fixed_wrapped_errors_witness :
    cleanupTranscript (.error "quota exceeded")
        = .error "Failed to cleanup transcript with Gemini"
    ∧ intelligentCleanup (.ok "  ")
        = .error "Failed to intelligent transcript with Gemini" :=
  ⟨(c6_amended_fixed_wrapped_errors "quota exceeded" "  " (by decide)).1,
   (c6_amended_fixed_wrapped_errors "quota exceeded" "  " (by decide)).2.2.2.1⟩

/-- C7: each input-validation failure answers 400 with its specific error
body and invokes no pipeline stage (conversion runs inside the
transcription stage, so an uncalled transcription stage also means no
conversion): a /transcribe request with no file, a /transcribe request
whose file is smaller than 1024 bytes, and a /cleanup-text request whose
`text` is missing, not a string, or trims to empty. -/
theorem c7_validation_rejected_before_pipeline (f : MFile) (s : String)
    (whisper : MFile → Except String String)
    (cleanupFn intelligentFn : String → Except String String)
    (hsize : f.size < 1024) (hs : jsTrim s = "") :
    transcribeRoute none whisper cleanupFn intelligentFn
        = (⟨400, { error := some "No audio file provided" }⟩, ⟨false, false, false⟩)
    ∧ transcribeRoute (some f) whisper cleanupFn intelligentFn
        = (⟨400, { error := some "Audio file is too small or corrupted" }⟩,
           ⟨false, false, false⟩)
    ∧ cleanupText (.str s) cleanupFn intelligentFn
        = (⟨400, { error := some "No text provided or text is empty" }⟩,
           ⟨false, false, false⟩)
    ∧ cleanupText .absent cleanupFn intelligentFn
        = (⟨400, { error := some "No text provided or text is empty" }⟩,
           ⟨false, false, false⟩)
    ∧ cleanupText .nonString cleanupFn intelligentFn
        = (⟨400, { error := some "No text provided or text is empty" }⟩,
           ⟨false, false, false⟩) := by
  refine ⟨by simp [transcribeRoute, validateAudioFile], ?_, ?_, rfl, rfl⟩
  · simp [transcribeRoute, validateAudioFile, hsize]
  · have hcond : (s == "" || jsTrim s == "") = true := (beq_empty_or_trim_iff s).mpr hs
    simp [cleanupText, hcond]

/-- Witness for C7 at concrete inputs: a 512-byte file and the
whitespace-only text "  ". -/
theorem c7_validation_rejected_before_pipeline_witness :
    transcribeRoute (some ⟨[1], "a.wav", "audio/wav", 512⟩)
        (fun _ => .ok "t") (fun s => .ok s) (fun s => .ok s)
        = (⟨400, { error := some "Audio file is too small or corrupted" }⟩,
           ⟨false, false, false⟩)
    ∧ cleanupText (.str "  ") (fun s => .ok s) (fun s => .ok s)
        = (⟨400, { error := some "No text provided or text is empty" }⟩,
           ⟨false, false, false⟩) :=
  ⟨(c7_validation_rejected_before_pipeline ⟨[1], "a.wav", "audio/wav", 512⟩ "  "
      (fun _ => .ok "t") (fun s => .ok s) (fun s => .ok s)
      (by decide) (by decide)).2.1,
   (c7_validation_rejected_before_pipeline ⟨[1], "a.wav", "audio/wav", 512⟩ "  "
      (fun _ => .ok "t") (fun s => .ok s) (fun s => .ok s)
      (by decide) (by decide)).2.2.1⟩

/-- Folding the `ondataavailable` handler over a delivered sequence keeps
exactly the non-empty chunks, in order, appended to the initial buffer. -/
theorem foldl_pushChunk_eq_filter (delivered : List (List Nat))
    (acc : List (List Nat)) :
    delivered.foldl pushChunk acc = acc ++ delivered.filter (fun c => !c.isEmpty) := by
  induction delivered generalizing acc with
  | nil => simp
  | cons d rest ih =>
      cases d with
      | nil => simpa [pushChunk] using ih acc
      | cons x xs =>
          simp only [List.foldl_cons, List.filter_cons]
          rw [pushChunk, if_pos (by simp)]
          simpa [List.append_assoc] using ih (acc ++ [x :: xs])

/-- C8: for every sequence of chunks delivered during a session, the blob
produced on stop has byte content equal to the concatenation, in delivery
order, of exactly the non-empty chunks; zero-length chunks are never
retained; and the blob's declared type is the recorder's reported MIME
type, or "audio/webm" when the recorder reports none (undefined or the
falsy empty string). -/
theorem c8_blob_is_ordered_concatenation (delivered : List (List Nat))
    (reported : Option String) :
    (assembleBlob (deliverChunks delivered) reported).bytes
        = (delivered.filter (fun c => !c.isEmpty)).flatten
    ∧ (∀ c ∈ deliverChunks delivered, c ≠ [])
    ∧ ((reported = none ∨ reported = some "") →
        (assembleBlob (deliverChunks delivered) reported).type = "audio/webm")
    ∧ (∀ s : String, reported = some s → s ≠ "" →
        (assembleBlob (deliverChunks delivered) reported).type = s) := by
  refine ⟨?_, ?_, ?_, ?_⟩
  · simp [assembleBlob, deliverChunks, foldl_pushChunk_eq_filter]
  · intro c hc
    rw [deliverChunks, foldl_pushChunk_eq_filter, List.nil_append] at hc
    have := List.of_mem_filter hc
    simpa using this
  · rintro (h | h) <;> simp [assembleBlob, blobType, h]
  · intro s hrep hs
    simp [assembleBlob, blobType, hrep, hs]

/-- Witness for C8 at a concrete session: three chunks with an empty one
in the middle, and a recorder that reports the empty string as its MIME
type, so the default applies. -/
theorem c8_blob_is_ordered_concatenation_witness :
    (assembleBlob (deliverChunks [[1, 2], [], [3]]) (some "")).bytes = [1, 2, 3]
    ∧ (assembleBlob (deliverChunks [[1, 2], [], [3]]) (some "")).type = "audio/webm" :=
  ⟨((c8_blob_is_ordered_concatenation [[1, 2], [], [3]] (some "")).1).trans (by decide),
   (c8_blob_is_ordered_concatenation [[1, 2], [], [3]] (some "")).2.2.1 (Or.inr rfl)⟩

/-- Counterexample to C9 as stated: a `RecordingService` session holding
the object URL "blob:held-audio-url" is reset; the reset performs no
`URL.revokeObjectURL` call at all, so the held URL is not released. -/
theorem c9_counterexample_url_not_revoked :
    (⟨none, [], none, 5, some ⟨[1], "audio/webm"⟩,
        "blob:held-audio-url"⟩ : RecordingServiceState).audioUrl = "blob:held-audio-url"
    ∧ (rsReset ⟨none, [], none, 5, some ⟨[1], "audio/webm"⟩,
        "blob:held-audio-url"⟩).2.revokedUrls = []
    ∧ ¬ "blob:held-audio-url" ∈ (rsReset ⟨none, [], none, 5,
        some ⟨[1], "audio/webm"⟩, "blob:held-audio-url"⟩).2.revokedUrls := by
  decide

/-- C9 as amended: `RecordingService.reset` stops an active recording if
one exists and returns the audio blob, audio URL, elapsed-time counter
and chunk buffer (and the timer handle) to their initial values, but
revokes no object URLs; it is `FileUploadService.reset` that revokes the
object URL it holds (when one is held) while clearing its state. -/
theorem c9_amended_reset_clears_but_does_not_revoke
    (st : RecordingServiceState) (fst : FileUploadState) :
    (rsReset st).1.audioBlob = none
    ∧ (rsReset st).1.audioUrl = ""
    ∧ (rsReset st).1.recordingTime = 0
    ∧ (rsReset st).1.audioChunks = []
    ∧ (rsReset st).1.timerInterval = none
    ∧ (∀ mr, st.mediaRecorder = some mr → mr.recState ≠ MRState.inactive →
        (rsReset st).2.stoppedRecorder = true)
    ∧ (rsReset st).2.revokedUrls = []
    ∧ (fst.uploadedFileUrl ≠ "" → (fuReset fst).2 = [fst.uploadedFileUrl])
    ∧ (fuReset fst).1 = ⟨none, ""⟩ := by
  refine ⟨rfl, rfl, rfl, rfl, rfl, ?_, rfl, ?_, rfl⟩
  · intro mr hmr hact
    simp [rsReset, rsStopRecording, hmr, hact]
  · intro h
    simp [fuReset, h]

/-- Witness for C9 as amended: a session with an active recorder and a
held URL, and a file-upload service holding "blob:upload-url". -/
theorem c9_amended_reset_clears_but_does_not_revoke_witness :
    (rsReset ⟨some ⟨MRState.recording, some "audio/webm"⟩, [[1]], some 3, 7,
        some ⟨[1], "audio/webm"⟩, "blob:x"⟩).2.stoppedRecorder = true
    ∧ (fuReset ⟨some "a.wav", "blob:upload-url"⟩).2 = ["blob:upload-url"] :=
  ⟨(c9_amended_reset_clears_but_does_not_revoke
      ⟨some ⟨MRState.recording, some "audio/webm"⟩, [[1]], some 3, 7,
        some ⟨[1], "audio/webm"⟩, "blob:x"⟩ ⟨some "a.wav", "blob:upload-url"⟩).2.2.2.2.2.1
      ⟨MRState.recording, some "audio/webm"⟩ rfl (by decide),
   (c9_amended_reset_clears_but_does_not_revoke
      ⟨some ⟨MRState.recording, some "audio/webm"⟩, [[1]], some 3, 7,
        some ⟨[1], "audio/webm"⟩, "blob:x"⟩
      ⟨some "a.wav", "blob:upload-url"⟩).2.2.2.2.2.2.2.1 (by decide)⟩

/-- C10: calling `stopRecording` when no session is active — no recorder
exists, or the recorder is already inactive — returns null and leaves
the state unchanged. -/
theorem c10_stop_when_idle_is_noop (st : AudioRecorderState)
    (h : st.mediaRecorder = none
      ∨ ∃ mr, st.mediaRecorder = some mr ∧ mr.recState = MRState.inactive) :
    stopRecording st = (none, st) := by
  rcases h with h | ⟨mr, hmr, hstate⟩
  · simp [stopRecording, h]
  · simp [stopRecording, hmr, hstate]

/-- Witness for C10 at a concrete state whose recorder is inactive. -/
theorem c10_stop_when_idle_is_noop_witness :
    stopRecording ⟨some ⟨MRState.inactive, some "audio/webm"⟩, [[1]], MRState.inactive⟩
      = (none, ⟨some ⟨MRState.inactive, some "audio/webm"⟩, [[1]], MRState.inactive⟩) :=
  c10_stop_when_idle_is_noop
    ⟨some ⟨MRState.inactive, some "audio/webm"⟩, [[1]], MRState.inactive⟩
    (Or.inr ⟨⟨MRState.inactive, some "audio/webm"⟩, rfl, rfl⟩)

end Transcriber
